import Mathlib

set_option linter.unusedVariables false

deriving instance DecidableEq for Except

namespace Auth

/-! Shallow embedding of the JWT auth backend:
src/src/auth/auth.service.ts, auth.controller.ts, jwt.strategy.ts and
jwt-auth.guard.ts.  The Prisma user table is explicit state (`Store`);
the async service methods become state-passing functions returning
`Except AppError`. -/

/-- The JavaScript whitespace class matched by the regex escape in
the email pattern (its ASCII members; the claims only involve ASCII). -/
def isSpaceChar (c : Char) : Bool :=
  c = ' ' || c = '\t' || c = '\n' || c = '\r' || c = '\x0b' || c = '\x0c'

/-- A character admissible in the three bracket atoms of the email regex:
anything that is not whitespace and not an at sign. -/
def emailAtomChar (c : Char) : Bool := !isSpaceChar c && c != '@'

/-- The test of the email regex of auth.service.ts line 166 (anchored:
atom run, at sign, atom run, dot, atom run).  Since the atoms exclude
the at sign a match must split at the unique at sign, and the part after
it must contain a dot at an interior position (nonempty atom run on each
side; the atoms themselves may contain further dots). -/
def emailRegexTest (s : String) : Bool :=
  let cs := s.toList
  let a := cs.takeWhile (fun c => c != '@')
  match cs.dropWhile (fun c => c != '@') with
  | [] => false
  | _ :: rest =>
    !a.isEmpty && a.all emailAtomChar &&
    !rest.isEmpty && rest.all emailAtomChar &&
    ((rest.drop 1).dropLast.contains '.')

/-- Modelled from the spec: the email "shape" exactly as the spec words
it — presence of an at sign, at least one dot after it, no whitespace.
Used only to compare the spec's characterization with the code's regex. -/
def specEmailShape (s : String) : Bool :=
  let cs := s.toList
  cs.contains '@' &&
  (((cs.dropWhile (fun c => c != '@')).drop 1).contains '.') &&
  cs.all (fun c => !isSpaceChar c)

/-- JavaScript String.prototype.toLowerCase, modelled characterwise
(the emails involved are ASCII). -/
def toLowerCase (s : String) : String := ⟨s.data.map Char.toLower⟩

/-- The NestJS exception classes thrown by the auth core (the spec's
error taxonomy: 400, 401, 403, 409, 500). -/
inductive AppError
  | badRequest (msg : String)
  | unauthorized (msg : String)
  | forbidden (msg : String)
  | conflict (msg : String)
  | internal (msg : String)
  deriving DecidableEq

/-- Prisma client failures relevant to this service: unique-constraint
violation and record-to-update-not-found. -/
inductive PrismaError
  | P2002
  | P2025
  deriving DecidableEq

/-- auth.service.ts handlePrismaError: code P2002 becomes a
ConflictException, anything else is rethrown and surfaces as a generic
internal error. -/
def handlePrismaError : PrismaError → AppError
  | .P2002 => .conflict "Email is already registered. Please use a different email."
  | .P2025 => .internal "P2025"

/-- A Prisma error escaping a method that has no try/catch surfaces as a
generic internal error. -/
def uncaughtPrisma : PrismaError → AppError
  | _ => .internal "Internal server error"

/-- bcrypt.hash with SALT_ROUNDS = 10, modelled as an injective tagged
encoding: the claims rely only on compare succeeding exactly for the
password that was hashed. -/
def hashPassword (p : String) : String := "bcrypt10$" ++ p

/-- bcrypt.compare of auth.service.ts line 75. -/
def bcryptCompare (password hash : String) : Bool := hashPassword password == hash

/-- The decoded JWT payload of jwt.strategy.ts (`sub` is the user id). -/
structure JwtPayload where
  sub : Nat
  email : String
  deriving DecidableEq

/-- A signed token, identified with its decoded content: payload,
issued-at and expiry times, and the secret that signed it.  JWT
serialization is bijective, so the token string is modelled by this
structure throughout. -/
structure Token where
  payload : JwtPayload
  iat : Nat
  exp : Nat
  sig : String
  deriving DecidableEq

/-- The process-wide signing secret (configuration key JWT_SECRET). -/
def jwtSecret : String := "JWT_SECRET"

/-- Modelled from the spec: the module wiring that configures the token
lifetime is not under src/; the spec fixes the default at one hour. -/
def jwtExpiresIn : Nat := 3600

/-- jwt.sign: attach issue and expiry times and the signature. -/
def signToken (secret : String) (p : JwtPayload) (now : Nat) : Token :=
  { payload := p, iat := now, exp := now + jwtExpiresIn, sig := secret }

/-- passport-jwt verification with ignoreExpiration set to false: the
signature must match the secret and the expiry must not have elapsed. -/
def verifyToken (secret : String) (t : Token) (now : Nat) : Bool :=
  t.sig == secret && now < t.exp

/-- One row of the Prisma User table.  Modelled from the spec: the schema
file is not under src/; the columns follow the spec's data model and the
field names follow the service's own queries (email, password,
currentToken).  The currentToken column stores the serialized token
string, modelled by an optional `Token`. -/
structure User where
  id : Nat
  email : String
  password : String
  currentToken : Option Token
  createdAt : Nat
  deriving DecidableEq

/-- The persistent database state: the user rows plus the autoincrement
counter for generated ids. -/
structure Store where
  users : List User
  nextId : Nat
  deriving DecidableEq

/-- prisma.user.findUnique with an email where-clause: exact match. -/
def findUniqueByEmail (s : Store) (e : String) : Option User :=
  s.users.find? (fun u => u.email = e)

/-- prisma.user.create: enforces the unique constraint on email (error
P2002) and fills the generated columns (id, currentToken initially null,
createdAt). -/
def prismaCreate (s : Store) (e hash : String) (now : Nat) :
    Except PrismaError (User × Store) :=
  if s.users.any (fun u => u.email = e) then
    .error .P2002
  else
    let u : User :=
      { id := s.nextId, email := e, password := hash,
        currentToken := none, createdAt := now }
    .ok (u, { users := s.users ++ [u], nextId := s.nextId + 1 })

/-- prisma.user.update with an id where-clause: error P2025 if the row
is absent. -/
def prismaUpdateTokenById (s : Store) (i : Nat) (tok : Option Token) :
    Except PrismaError Store :=
  if s.users.any (fun u => u.id = i) then
    .ok { s with users :=
      s.users.map (fun u => if u.id = i then { u with currentToken := tok } else u) }
  else
    .error .P2025

/-- prisma.user.update with an email where-clause: error P2025 if the
row is absent. -/
def prismaUpdateTokenByEmail (s : Store) (e : String) (tok : Option Token) :
    Except PrismaError Store :=
  if s.users.any (fun u => u.email = e) then
    .ok { s with users :=
      s.users.map (fun u => if u.email = e then { u with currentToken := tok } else u) }
  else
    .error .P2025

/-- A JSON field value of the objects the service returns. -/
inductive FieldValue
  | nat (n : Nat)
  | str (s : String)
  | tok (t : Token)
  | null
  deriving DecidableEq

/-- The JavaScript object Prisma returns for a row: every column, in
model order — the service passes no select or omit clause anywhere. -/
def userToObject (u : User) : List (String × FieldValue) :=
  [ ("id", FieldValue.nat u.id),
    ("email", FieldValue.str u.email),
    ("password", FieldValue.str u.password),
    ("currentToken",
      match u.currentToken with
      | some t => FieldValue.tok t
      | none => FieldValue.null),
    ("createdAt", FieldValue.nat u.createdAt) ]

/-- auth.service.ts sanitizeUser: rest-destructuring removes only the
password key and keeps every other key of the object. -/
def sanitizeUser (obj : List (String × FieldValue)) : List (String × FieldValue) :=
  obj.filter (fun kv => kv.1 ≠ "password")

/-- The RegisterDto of auth.service.ts.  A missing field arrives as the
empty string, matching the JS falsiness test on the fields. -/
structure RegisterDto where
  email : String
  password : String
  deriving DecidableEq

/-- auth.service.ts validateInput: ordered checks — field presence, then
password length at least 6, then the email regex. -/
def validateInput (data : RegisterDto) : Except AppError Unit :=
  if data.email = "" || data.password = "" then
    .error (.badRequest "Email and password are required")
  else if data.password.length < 6 then
    .error (.badRequest "Password must be at least 6 characters")
  else if !emailRegexTest data.email then
    .error (.badRequest "Invalid email format")
  else
    .ok ()

/-- auth.service.ts register: validate the input, hash the password,
create the row with the lowercased email, map Prisma errors through
handlePrismaError, and return the sanitized row object. -/
def register (s : Store) (data : RegisterDto) (now : Nat) :
    Except AppError (List (String × FieldValue) × Store) :=
  match validateInput data with
  | .error e => .error e
  | .ok _ =>
    match prismaCreate s (toLowerCase data.email) (hashPassword data.password) now with
    | .error pe => .error (handlePrismaError pe)
    | .ok (u, s2) => .ok (sanitizeUser (userToObject u), s2)

/-- auth.service.ts validateUser: lowercased lookup, then bcrypt compare;
null on a missing user or a mismatching password. -/
def validateUser (s : Store) (email password : String) : Option User :=
  match findUniqueByEmail s (toLowerCase email) with
  | none => none
  | some user => if bcryptCompare password user.password then some user else none

/-- The AuthResponse of auth.service.ts. -/
structure AuthResponse where
  access_token : Token
  deriving DecidableEq

/-- auth.service.ts login: validate the credentials, sign the payload of
user id and email, persist the token into the row (no try/catch: an
update failure propagates and fails the login), return the token. -/
def login (s : Store) (email password : String) (now : Nat) :
    Except AppError (AuthResponse × Store) :=
  match validateUser s email password with
  | none => .error (.unauthorized "Invalid email or password")
  | some user =>
    let payload : JwtPayload := { sub := user.id, email := user.email }
    let access_token := signToken jwtSecret payload now
    match prismaUpdateTokenById s user.id (some access_token) with
    | .error pe => .error (uncaughtPrisma pe)
    | .ok s2 => .ok ({ access_token := access_token }, s2)

/-- auth.service.ts logout: presence check on the target email, lookup by
the email exactly as given, ownership comparison with the caller's email
exactly as given, then clear the stored token.  The console.log audit
line is observability only and is not modelled. -/
def logout (s : Store) (email loggedInUserEmail : String) :
    Except AppError (Option Bool × Store) :=
  if email = "" then
    .error (.badRequest "Email is required")
  else
    match findUniqueByEmail s email with
    | none => .error (.badRequest "Enter a valid email.")
    | some _user =>
      if email ≠ loggedInUserEmail then
        .error (.forbidden "You can only logout your own account.")
      else
        match prismaUpdateTokenByEmail s email none with
        | .error pe => .error (uncaughtPrisma pe)
        | .ok s2 => .ok (some true, s2)

/-- The ValidatedUser of jwt.strategy.ts. -/
structure ValidatedUser where
  userId : Nat
  email : String
  deriving DecidableEq

/-- JwtStrategy.validate: a pure projection of the decoded payload. -/
def validate (p : JwtPayload) : ValidatedUser :=
  { userId := p.sub, email := p.email }

/-- JwtAuthGuard plus JwtStrategy as one request-pipeline step.  The
store is the ambient persistent state available to the request; per
jwt.strategy.ts and jwt-auth.guard.ts the check never reads it: only
signature and expiry are verified, then `validate` projects the payload
into the exposed identity. -/
def guardCheck (s : Store) (t : Token) (now : Nat) : Except AppError ValidatedUser :=
  if verifyToken jwtSecret t now then
    .ok (validate t.payload)
  else
    .error (.unauthorized "Unauthorized")

/-- JavaScript truthiness of the service's boolean-or-null logout result. -/
def jsTruthy : Option Bool → Bool
  | none => false
  | some b => b

/-- auth.controller.ts logout handler: early message returns for a
missing body email or an unextractable caller email, then the service
call; a truthy result maps to the success message and a falsy one to the
no-user-found fallback message. -/
def controllerLogout (s : Store) (email : String) (reqUserEmail : Option String) :
    Except AppError (String × Store) :=
  if email = "" then
    .ok ("Email is required to logout", s)
  else
    match reqUserEmail with
    | none => .ok ("Unable to extract logged-in user email from token", s)
    | some c =>
      if c = "" then
        .ok ("Unable to extract logged-in user email from token", s)
      else
        match logout s email c with
        | .error e => .error e
        | .ok (r, s2) =>
          if jsTruthy r then
            .ok ("User with email " ++ email ++ " logged out successfully", s2)
          else
            .ok ("No user found with email " ++ email, s2)

/-- The empty database. -/
def emptyStore : Store := { users := [], nextId := 1 }

/-- A concrete token for the sample user below. -/
def demoToken : Token := signToken jwtSecret { sub := 1, email := "a@b.com" } 0

/-- A sample registered user with a live session token. -/
def demoUser : User :=
  { id := 1, email := "a@b.com", password := hashPassword "secret12",
    currentToken := some demoToken, createdAt := 0 }

/-- A sample database holding exactly the sample user. -/
def demoStore : Store := { users := [demoUser], nextId := 2 }


lemma aux_find_mem {s : Store} {e : String} {u : User}
    (h : findUniqueByEmail s e = some u) : u ∈ s.users ∧ u.email = e := by
  unfold findUniqueByEmail at h
  refine ⟨List.mem_of_find?_eq_some h, ?_⟩
  have hp := List.find?_some h
  simpa using hp

lemma aux_any_of_find {s : Store} {e : String} {u : User}
    (h : findUniqueByEmail s e = some u) :
    s.users.any (fun v => v.email = e) = true := by
  rcases aux_find_mem h with ⟨hm, he⟩
  rw [List.any_eq_true]
  exact ⟨u, hm, by simp [he]⟩

lemma aux_clear_idem (e : String) (v : User) :
    (fun u => if u.email = e then { u with currentToken := none } else u)
        ((fun u => if u.email = e then { u with currentToken := none } else u) v)
      = (fun u => if u.email = e then { u with currentToken := none } else u) v := by
  by_cases h : v.email = e <;> simp [h]

lemma aux_find_map_clear (l : List User) (e : String) :
    (l.map (fun u => if u.email = e then { u with currentToken := none } else u)).find?
        (fun u => u.email = e)
      = (l.find? (fun u => u.email = e)).map
          (fun u => if u.email = e then { u with currentToken := none } else u) := by
  induction l with
  | nil => rfl
  | cons v t ih =>
    by_cases h : v.email = e
    · simp [List.find?_cons, h]
    · simp [List.find?_cons, h, ih]

lemma aux_map_clear_idem (l : List User) (e : String) :
    (l.map (fun u => if u.email = e then { u with currentToken := none } else u)).map
        (fun u => if u.email = e then { u with currentToken := none } else u)
      = l.map (fun u => if u.email = e then { u with currentToken := none } else u) := by
  induction l with
  | nil => rfl
  | cons v t ih =>
    simp only [List.map_cons]
    rw [ih]
    have hh := aux_clear_idem e v
    simp only at hh
    rw [hh]

lemma logout_ok_inv {s : Store} {e c : String} {r : Option Bool} {s1 : Store}
    (h : logout s e c = .ok (r, s1)) :
    e ≠ "" ∧ c = e ∧ r = some true ∧
      ∃ u, findUniqueByEmail s e = some u ∧
        s1 = { s with users := (s.users.map (fun v => if v.email = e then { v with currentToken := none } else v)) } := by
  unfold logout at h
  by_cases he : e = ""
  · simp [he] at h
  · rw [if_neg he] at h
    cases hf : findUniqueByEmail s e with
    | none => rw [hf] at h; exact absurd h (by simp)
    | some u =>
      rw [hf] at h
      by_cases hc : e ≠ c
      · rw [if_pos hc] at h; exact absurd h (by simp)
      · rw [if_neg hc] at h
        push_neg at hc
        have hany := aux_any_of_find hf
        unfold prismaUpdateTokenByEmail at h
        rw [if_pos hany] at h
        simp at h
        exact ⟨he, hc.symm, h.1.symm, u, rfl, h.2.symm⟩


lemma register_ok_inv {s : Store} {data : RegisterDto} {now : Nat}
    {out : List (String × FieldValue)} {s1 : Store}
    (h : register s data now = .ok (out, s1)) :
    validateInput data = .ok () ∧
      s.users.any (fun u => u.email = toLowerCase data.email) = false ∧
      out = [ ("id", FieldValue.nat s.nextId),
              ("email", FieldValue.str (toLowerCase data.email)),
              ("currentToken", FieldValue.null),
              ("createdAt", FieldValue.nat now) ] ∧
      s1 = { users := (s.users ++ [{ id := s.nextId, email := toLowerCase data.email, password := hashPassword data.password, currentToken := none, createdAt := now }]), nextId := s.nextId + 1 } := by
  unfold register at h
  cases hv : validateInput data with
  | error err => rw [hv] at h; exact absurd h (by simp)
  | ok uu =>
    rw [hv] at h
    unfold prismaCreate at h
    by_cases ha : s.users.any (fun u => u.email = toLowerCase data.email) = true
    · rw [if_pos ha] at h
      exact absurd h (by simp)
    · rw [if_neg ha] at h
      simp at h
      refine ⟨rfl, by simpa using ha, ?_, ?_⟩
      · rw [← h.1]
        simp [sanitizeUser, userToObject]
      · exact h.2.symm

lemma login_ok_inv {s : Store} {e p : String} {now : Nat} {resp : AuthResponse} {s1 : Store}
    (h : login s e p now = .ok (resp, s1)) :
    ∃ u, validateUser s e p = some u ∧
      resp = { access_token := signToken jwtSecret { sub := u.id, email := u.email } now } ∧
      prismaUpdateTokenById s u.id (some resp.access_token) = .ok s1 := by
  unfold login at h
  cases hv : validateUser s e p with
  | none => rw [hv] at h; exact absurd h (by simp)
  | some u =>
    rw [hv] at h
    simp only [] at h
    cases hu : prismaUpdateTokenById s u.id
        (some (signToken jwtSecret { sub := u.id, email := u.email } now)) with
    | error pe => rw [hu] at h; exact absurd h (by simp)
    | ok s2 =>
      rw [hu] at h
      simp at h
      obtain ⟨h1, h2⟩ := h
      refine ⟨u, rfl, h1.symm, ?_⟩
      have hacc : resp.access_token = signToken jwtSecret { sub := u.id, email := u.email } now := by
        rw [← h1]
      rw [hacc, ← h2]
      exact hu


/-- Claim C1 as stated is false: logout does not lowercase the target
email before its lookup.  With the sample store holding the user
a@b.com, logging out the target A@B.COM fails the lookup and raises the
validation error, while the lowercased target succeeds — so logout's
behaviour differs from lowercase-normalized behaviour at this input. -/
theorem C1_counterexample :
    logout demoStore "A@B.COM" "a@b.com"
        ≠ logout demoStore (toLowerCase "A@B.COM") "a@b.com" ∧
    logout demoStore "A@B.COM" "a@b.com" = .error (.badRequest "Enter a valid email.") := by
  constructor
  · decide
  · decide

/-- Claim C1, amended: registration lowercases the email before creating
the record and login lowercases it before the lookup, but logout performs
no normalization — it looks up the target email and compares it with the
caller's email exactly as given. -/
theorem C1_amended :
    (∀ (s : Store) (data : RegisterDto) (now : Nat) (out : List (String × FieldValue)) (s1 : Store),
      register s data now = .ok (out, s1) →
      s1.users = s.users ++ [{ id := s.nextId, email := toLowerCase data.email, password := hashPassword data.password, currentToken := none, createdAt := now }]) ∧
    (∀ (s : Store) (e p : String) (u : User),
      validateUser s e p = some u → findUniqueByEmail s (toLowerCase e) = some u) ∧
    (∀ (s : Store) (e p : String),
      findUniqueByEmail s (toLowerCase e) = none → validateUser s e p = none) ∧
    (∀ (s : Store) (e c : String),
      e ≠ "" → findUniqueByEmail s e = none →
      logout s e c = .error (.badRequest "Enter a valid email.")) ∧
    (∀ (s : Store) (e c : String) (u : User),
      e ≠ "" → findUniqueByEmail s e = some u → e ≠ c →
      logout s e c = .error (.forbidden "You can only logout your own account.")) := by
  refine ⟨?_, ?_, ?_, ?_, ?_⟩
  · intro s data now out s1 h
    rw [(register_ok_inv h).2.2.2]
  · intro s e p u h
    unfold validateUser at h
    cases hf : findUniqueByEmail s (toLowerCase e) with
    | none => rw [hf] at h; exact absurd h (by simp)
    | some v =>
      rw [hf] at h
      by_cases hb : bcryptCompare p v.password = true
      · simp [hb] at h
        rw [h]
      · simp [hb] at h
  · intro s e p h
    unfold validateUser
    rw [h]
  · intro s e c he hf
    unfold logout
    rw [if_neg he, hf]
  · intro s e c u he hf hc
    unfold logout
    rw [if_neg he, hf, if_pos hc]

/-- Claim C1 amended, witnessed at concrete inputs: a mixed-case
registration stores the lowercased email, a mixed-case login finds the
lowercased row, and logout on a missing raw email or a raw email
different from the caller's raises the respective errors. -/
theorem C1_witness :
    (register demoStore { email := "New@X.com", password := "secret12" } 3
        = .ok ([("id", FieldValue.nat 2), ("email", FieldValue.str "new@x.com"), ("currentToken", FieldValue.null), ("createdAt", FieldValue.nat 3)],
               { users := (demoStore.users ++ [{ id := 2, email := "new@x.com", password := hashPassword "secret12", currentToken := none, createdAt := 3 }]), nextId := 3 }) ∧
      ({ users := (demoStore.users ++ [{ id := 2, email := "new@x.com", password := hashPassword "secret12", currentToken := none, createdAt := 3 }]), nextId := 3 } : Store).users
        = demoStore.users ++ [{ id := 2, email := "new@x.com", password := hashPassword "secret12", currentToken := none, createdAt := 3 }]) ∧
    (validateUser demoStore "A@B.com" "secret12" = some demoUser ∧
      findUniqueByEmail demoStore (toLowerCase "A@B.com") = some demoUser) ∧
    (findUniqueByEmail demoStore "missing@x.com" = none ∧
      logout demoStore "missing@x.com" "a@b.com" = .error (.badRequest "Enter a valid email.")) ∧
    (findUniqueByEmail demoStore "a@b.com" = some demoUser ∧
      logout demoStore "a@b.com" "A@B.COM" = .error (.forbidden "You can only logout your own account.")) := by
  refine ⟨⟨by decide, ?_⟩, ⟨by decide, ?_⟩, ⟨by decide, ?_⟩, ⟨by decide, ?_⟩⟩
  · exact C1_amended.1 demoStore { email := "New@X.com", password := "secret12" } 3
      [("id", FieldValue.nat 2), ("email", FieldValue.str "new@x.com"), ("currentToken", FieldValue.null), ("createdAt", FieldValue.nat 3)]
      { users := (demoStore.users ++ [{ id := 2, email := "new@x.com", password := hashPassword "secret12", currentToken := none, createdAt := 3 }]), nextId := 3 } (by decide)
  · exact C1_amended.2.1 demoStore "A@B.com" "secret12" demoUser (by decide)
  · exact C1_amended.2.2.2.1 demoStore "missing@x.com" "a@b.com" (by decide) (by decide)
  · exact C1_amended.2.2.2.2 demoStore "a@b.com" "A@B.COM" demoUser (by decide) (by decide) (by decide)

/-- Claim C2: on logout, a missing user record for the target email
yields the validation error (for every caller, in particular one whose
own email differs from the target, showing the existence check runs
before the ownership check), and an existing target that differs from
the caller's email yields the forbidden error. -/
theorem C2_theorem (s : Store) (e c : String) :
    (findUniqueByEmail s e = none → ∃ m, logout s e c = .error (.badRequest m)) ∧
    (e ≠ "" → findUniqueByEmail s e = none →
      logout s e c = .error (.badRequest "Enter a valid email.")) ∧
    (e ≠ "" → ∀ u, findUniqueByEmail s e = some u → e ≠ c →
      logout s e c = .error (.forbidden "You can only logout your own account.")) := by
  refine ⟨?_, ?_, ?_⟩
  · intro hf
    by_cases he : e = ""
    · exact ⟨"Email is required", by unfold logout; rw [if_pos he]⟩
    · exact ⟨"Enter a valid email.", by unfold logout; rw [if_neg he, hf]⟩
  · intro he hf
    unfold logout
    rw [if_neg he, hf]
  · intro he u hf hc
    unfold logout
    rw [if_neg he, hf, if_pos hc]

/-- Claim C2, witnessed: with the sample store, a logout aimed at a
missing email by a different caller fails with the validation error, and
a logout aimed at the existing user by a different caller fails with the
forbidden error. -/
theorem C2_witness :
    (findUniqueByEmail demoStore "missing@x.com" = none ∧
      logout demoStore "missing@x.com" "other@x.com" = .error (.badRequest "Enter a valid email.")) ∧
    (findUniqueByEmail demoStore "a@b.com" = some demoUser ∧
      logout demoStore "a@b.com" "other@x.com" = .error (.forbidden "You can only logout your own account.")) := by
  refine ⟨⟨by decide, ?_⟩, ⟨by decide, ?_⟩⟩
  · exact (C2_theorem demoStore "missing@x.com" "other@x.com").2.1 (by decide) (by decide)
  · exact (C2_theorem demoStore "a@b.com" "other@x.com").2.2 (by decide) demoUser (by decide) (by decide)


/-- Claim C3 as stated is false: a successful registration's returned
object is not exactly the three public fields — rest-destructuring in
sanitizeUser removes only the password key, so the session-token column
(currentToken, initially null) stays in the returned object. -/
theorem C3_counterexample :
    register emptyStore { email := "A@B.com", password := "secret12" } 5
      = .ok ([("id", FieldValue.nat 1), ("email", FieldValue.str "a@b.com"), ("currentToken", FieldValue.null), ("createdAt", FieldValue.nat 5)],
             { users := [{ id := 1, email := "a@b.com", password := hashPassword "secret12", currentToken := none, createdAt := 5 }], nextId := 2 }) ∧
    ([("id", FieldValue.nat 1), ("email", FieldValue.str "a@b.com"), ("currentToken", FieldValue.null), ("createdAt", FieldValue.nat 5)].map Prod.fst
      ≠ ["id", "email", "createdAt"]) := by
  constructor
  · decide
  · decide

/-- Claim C3, amended: every successful registration returns exactly the
keys id, email, currentToken and createdAt, in that order; the password
hash is never present, and the session-token key is present with the
null value. -/
theorem C3_amended (s : Store) (data : RegisterDto) (now : Nat)
    (out : List (String × FieldValue)) (s1 : Store)
    (h : register s data now = .ok (out, s1)) :
    out.map Prod.fst = ["id", "email", "currentToken", "createdAt"] ∧
    (∀ v, ("password", v) ∉ out) ∧
    ("currentToken", FieldValue.null) ∈ out := by
  obtain ⟨-, -, hout, -⟩ := register_ok_inv h
  subst hout
  refine ⟨rfl, ?_, ?_⟩
  · intro v hv
    simp at hv
  · simp

/-- Claim C3 amended, witnessed at a concrete registration. -/
theorem C3_witness :
    register emptyStore { email := "New@X.com", password := "secret12" } 7
      = .ok ([("id", FieldValue.nat 1), ("email", FieldValue.str "new@x.com"), ("currentToken", FieldValue.null), ("createdAt", FieldValue.nat 7)],
             { users := [{ id := 1, email := "new@x.com", password := hashPassword "secret12", currentToken := none, createdAt := 7 }], nextId := 2 }) ∧
    ([("id", FieldValue.nat 1), ("email", FieldValue.str "new@x.com"), ("currentToken", FieldValue.null), ("createdAt", FieldValue.nat 7)].map Prod.fst
        = ["id", "email", "currentToken", "createdAt"] ∧
      (∀ v, ("password", v) ∉ [("id", FieldValue.nat 1), ("email", FieldValue.str "new@x.com"), ("currentToken", FieldValue.null), ("createdAt", FieldValue.nat 7)]) ∧
      ("currentToken", FieldValue.null) ∈ [("id", FieldValue.nat 1), ("email", FieldValue.str "new@x.com"), ("currentToken", FieldValue.null), ("createdAt", FieldValue.nat 7)]) := by
  refine ⟨by decide, ?_⟩
  exact C3_amended emptyStore { email := "New@X.com", password := "secret12" } 7
    [("id", FieldValue.nat 1), ("email", FieldValue.str "new@x.com"), ("currentToken", FieldValue.null), ("createdAt", FieldValue.nat 7)]
    { users := [{ id := 1, email := "new@x.com", password := hashPassword "secret12", currentToken := none, createdAt := 7 }], nextId := 2 } (by decide)

/-- Claim C4: a login with an existing email but a wrong password and a
login with a non-existent email fail with the identical
UnauthorizedError message, so the outcome does not reveal whether the
email exists. -/
theorem C4_theorem (s : Store) (e1 p1 e2 p2 : String) (u : User) (n1 n2 : Nat)
    (h1 : findUniqueByEmail s (toLowerCase e1) = some u)
    (h2 : bcryptCompare p1 u.password = false)
    (h3 : findUniqueByEmail s (toLowerCase e2) = none) :
    login s e1 p1 n1 = .error (.unauthorized "Invalid email or password") ∧
    login s e2 p2 n2 = login s e1 p1 n1 := by
  have hv1 : validateUser s e1 p1 = none := by
    unfold validateUser
    rw [h1]
    simp [h2]
  have hv2 : validateUser s e2 p2 = none := by
    unfold validateUser
    rw [h3]
  constructor
  · unfold login
    rw [hv1]
  · unfold login
    rw [hv1, hv2]

/-- Claim C4, witnessed: with the sample store, a wrong password for the
existing user and an unknown email produce the same error. -/
theorem C4_witness :
    (findUniqueByEmail demoStore (toLowerCase "a@b.com") = some demoUser ∧
      bcryptCompare "wrongpw" demoUser.password = false ∧
      findUniqueByEmail demoStore (toLowerCase "nobody@x.com") = none) ∧
    (login demoStore "a@b.com" "wrongpw" 4 = .error (.unauthorized "Invalid email or password") ∧
      login demoStore "nobody@x.com" "whatever" 9 = login demoStore "a@b.com" "wrongpw" 4) := by
  refine ⟨⟨by decide, by decide, by decide⟩, ?_⟩
  exact C4_theorem demoStore "a@b.com" "wrongpw" "nobody@x.com" "whatever" demoUser 4 9
    (by decide) (by decide) (by decide)

/-- Claim C5: a successful login validates the credentials, issues a
token whose payload is exactly the user's id and stored email, persists
that token into the user's row (overwriting any prior value, every other
row and field untouched) — success is only possible with the persisting
update succeeding and producing the returned state — and returns the
token as the access_token field. -/
theorem C5_theorem (s : Store) (e p : String) (now : Nat)
    (resp : AuthResponse) (s1 : Store)
    (h : login s e p now = .ok (resp, s1)) :
    ∃ u, validateUser s e p = some u ∧
      resp = { access_token := signToken jwtSecret { sub := u.id, email := u.email } now } ∧
      resp.access_token.payload = { sub := u.id, email := u.email } ∧
      prismaUpdateTokenById s u.id (some resp.access_token) = .ok s1 ∧
      s1.users = s.users.map (fun v => if v.id = u.id then { v with currentToken := some resp.access_token } else v) ∧
      s1.nextId = s.nextId := by
  obtain ⟨u, hv, hresp, hupd⟩ := login_ok_inv h
  refine ⟨u, hv, hresp, (by rw [hresp]; rfl), hupd, ?_, ?_⟩
  · unfold prismaUpdateTokenById at hupd
    by_cases ha : s.users.any (fun v => v.id = u.id) = true
    · rw [if_pos ha] at hupd
      simp at hupd
      rw [← hupd]
    · rw [if_neg ha] at hupd
      exact absurd hupd (by simp)
  · unfold prismaUpdateTokenById at hupd
    by_cases ha : s.users.any (fun v => v.id = u.id) = true
    · rw [if_pos ha] at hupd
      simp at hupd
      rw [← hupd]
    · rw [if_neg ha] at hupd
      exact absurd hupd (by simp)

/-- Claim C5, witnessed at a concrete successful login. -/
theorem C5_witness :
    login demoStore "a@b.com" "secret12" 7
      = .ok ({ access_token := signToken jwtSecret { sub := 1, email := "a@b.com" } 7 },
             { users := [{ demoUser with currentToken := some (signToken jwtSecret { sub := 1, email := "a@b.com" } 7) }], nextId := 2 }) ∧
    (∃ u, validateUser demoStore "a@b.com" "secret12" = some u ∧
      ({ access_token := signToken jwtSecret { sub := 1, email := "a@b.com" } 7 } : AuthResponse)
        = { access_token := signToken jwtSecret { sub := u.id, email := u.email } 7 } ∧
      ({ access_token := signToken jwtSecret { sub := 1, email := "a@b.com" } 7 } : AuthResponse).access_token.payload
        = { sub := u.id, email := u.email } ∧
      prismaUpdateTokenById demoStore u.id (some ({ access_token := signToken jwtSecret { sub := 1, email := "a@b.com" } 7 } : AuthResponse).access_token)
        = .ok { users := [{ demoUser with currentToken := some (signToken jwtSecret { sub := 1, email := "a@b.com" } 7) }], nextId := 2 } ∧
      ({ users := [{ demoUser with currentToken := some (signToken jwtSecret { sub := 1, email := "a@b.com" } 7) }], nextId := 2 } : Store).users
        = demoStore.users.map (fun v => if v.id = u.id then { v with currentToken := some ({ access_token := signToken jwtSecret { sub := 1, email := "a@b.com" } 7 } : AuthResponse).access_token } else v) ∧
      ({ users := [{ demoUser with currentToken := some (signToken jwtSecret { sub := 1, email := "a@b.com" } 7) }], nextId := 2 } : Store).nextId
        = demoStore.nextId) := by
  refine ⟨by decide, ?_⟩
  exact C5_theorem demoStore "a@b.com" "secret12" 7 _ _ (by decide)


/-- Claim C6 as stated is false: the parenthesized reading of the email
shape — an at sign, at least one dot after it, no whitespace — is
satisfied by the input a@.b (with a valid password), yet registration
rejects that input with the email-format ValidationError, because the
code's regex additionally demands a nonempty run between the at sign and
a dot. -/
theorem C6_counterexample :
    specEmailShape "a@.b" = true ∧
    emailRegexTest "a@.b" = false ∧
    register demoStore { email := "a@.b", password := "secret12" } 0
      = .error (.badRequest "Invalid email format") := by
  refine ⟨by decide, by decide, by decide⟩

/-- Claim C6, amended: registration raises the listed errors in order —
ValidationError when email or password is empty, then ValidationError
when the password is shorter than 6 characters, then ValidationError
when the email fails the code's regex (nonempty run of non-whitespace
non-at characters, an at sign, a nonempty such run, a dot, a nonempty
such run); when validation passes, it raises ConflictError exactly when
a user with the lowercased email already exists and otherwise succeeds
with the created row. -/
theorem C6_amended (s : Store) (data : RegisterDto) (now : Nat) :
    (data.email = "" ∨ data.password = "" →
      register s data now = .error (.badRequest "Email and password are required")) ∧
    (data.email ≠ "" → data.password ≠ "" → data.password.length < 6 →
      register s data now = .error (.badRequest "Password must be at least 6 characters")) ∧
    (data.email ≠ "" → data.password ≠ "" → ¬ data.password.length < 6 →
      emailRegexTest data.email = false →
      register s data now = .error (.badRequest "Invalid email format")) ∧
    (validateInput data = .ok () →
      (s.users.any (fun u => u.email = toLowerCase data.email) = true →
        register s data now = .error (.conflict "Email is already registered. Please use a different email.")) ∧
      (s.users.any (fun u => u.email = toLowerCase data.email) = false →
        register s data now
          = .ok (sanitizeUser (userToObject { id := s.nextId, email := toLowerCase data.email, password := hashPassword data.password, currentToken := none, createdAt := now }),
                 { users := (s.users ++ [{ id := s.nextId, email := toLowerCase data.email, password := hashPassword data.password, currentToken := none, createdAt := now }]), nextId := s.nextId + 1 }))) := by
  refine ⟨?_, ?_, ?_, ?_⟩
  · intro h
    unfold register validateInput
    rcases h with h | h <;> simp [h]
  · intro h1 h2 h3
    unfold register validateInput
    simp [h1, h2, h3]
  · intro h1 h2 h3 h4
    unfold register validateInput
    simp [h1, h2, h3, h4]
  · intro hv
    constructor
    · intro ha
      unfold register
      rw [hv]
      unfold prismaCreate
      rw [if_pos ha]
      rfl
    · intro ha
      unfold register
      rw [hv]
      unfold prismaCreate
      rw [if_neg (by simp [ha])]

/-- Claim C6 amended, witnessed: each branch exercised at a concrete
input against the sample store — empty email, short password, regex
failure, duplicate (case-insensitive) email, and a fresh success. -/
theorem C6_witness :
    (register demoStore { email := "", password := "secret12" } 0
      = .error (.badRequest "Email and password are required")) ∧
    (register demoStore { email := "a@b.com", password := "abc" } 0
      = .error (.badRequest "Password must be at least 6 characters")) ∧
    (register demoStore { email := "a@b com", password := "secret12" } 0
      = .error (.badRequest "Invalid email format")) ∧
    (register demoStore { email := "A@B.com", password := "secret12" } 0
      = .error (.conflict "Email is already registered. Please use a different email.")) ∧
    (register demoStore { email := "New@X.com", password := "secret12" } 3
      = .ok (sanitizeUser (userToObject { id := 2, email := toLowerCase "New@X.com", password := hashPassword "secret12", currentToken := none, createdAt := 3 }),
             { users := (demoStore.users ++ [{ id := 2, email := toLowerCase "New@X.com", password := hashPassword "secret12", currentToken := none, createdAt := 3 }]), nextId := 3 })) := by
  refine ⟨?_, ?_, ?_, ?_, ?_⟩
  · exact (C6_amended demoStore { email := "", password := "secret12" } 0).1 (Or.inl rfl)
  · exact (C6_amended demoStore { email := "a@b.com", password := "abc" } 0).2.1
      (by decide) (by decide) (by decide)
  · exact (C6_amended demoStore { email := "a@b com", password := "secret12" } 0).2.2.1
      (by decide) (by decide) (by decide) (by decide)
  · exact ((C6_amended demoStore { email := "A@B.com", password := "secret12" } 0).2.2.2
      (by decide)).1 (by decide)
  · exact ((C6_amended demoStore { email := "New@X.com", password := "secret12" } 3).2.2.2
      (by decide)).2 (by decide)

/-- Claim C7: the authorization check is a pure function of the bearer
token and the clock — for every token that verifies (signature and
unexpired), and any two store states whatsoever (in particular before
and after the owner's logout), the guard accepts and exposes the
identical decoded identity of payload subject and email. -/
theorem C7_theorem (s1 s2 : Store) (t : Token) (now : Nat)
    (h : verifyToken jwtSecret t now = true) :
    guardCheck s1 t now = .ok { userId := t.payload.sub, email := t.payload.email } ∧
    guardCheck s2 t now = guardCheck s1 t now := by
  constructor
  · unfold guardCheck
    rw [if_pos h]
    rfl
  · unfold guardCheck
    rw [if_pos h]

/-- Claim C7, witnessed: the sample token verifies before expiry and the
guard accepts it identically against the sample store and against the
store in which its owner has already logged out. -/
theorem C7_witness :
    verifyToken jwtSecret demoToken 10 = true ∧
    guardCheck demoStore demoToken 10 = .ok { userId := 1, email := "a@b.com" } ∧
    guardCheck { users := [{ demoUser with currentToken := none }], nextId := 2 } demoToken 10
      = guardCheck demoStore demoToken 10 := by
  refine ⟨by decide, ?_, ?_⟩
  · exact (C7_theorem demoStore { users := [{ demoUser with currentToken := none }], nextId := 2 } demoToken 10 (by decide)).1
  · exact (C7_theorem demoStore { users := [{ demoUser with currentToken := none }], nextId := 2 } demoToken 10 (by decide)).2


/-- Claim C8: a successful logout rewrites the store to the same rows
with only the target email's row changed, and on that row only the
currentToken field is cleared — every untargeted row is kept as-is, and
the targeted row is kept with all other fields intact. -/
theorem C8_theorem (s : Store) (e c : String) (r : Option Bool) (s1 : Store)
    (h : logout s e c = .ok (r, s1)) :
    s1.nextId = s.nextId ∧
    s1.users = s.users.map (fun v => if v.email = e then { v with currentToken := none } else v) ∧
    (∀ v ∈ s.users, v.email ≠ e → v ∈ s1.users) ∧
    (∀ v ∈ s.users, v.email = e → { v with currentToken := none } ∈ s1.users) := by
  obtain ⟨-, -, -, u, -, hs1⟩ := logout_ok_inv h
  subst hs1
  refine ⟨rfl, rfl, ?_, ?_⟩
  · intro v hv hne
    have hmem := List.mem_map_of_mem
      (fun w => if w.email = e then { w with currentToken := none } else w) hv
    simpa [hne] using hmem
  · intro v hv he'
    have hmem := List.mem_map_of_mem
      (fun w => if w.email = e then { w with currentToken := none } else w) hv
    simpa [he'] using hmem

/-- Claim C8, witnessed at a concrete successful logout of the sample
user: only the session token of the target row is cleared. -/
theorem C8_witness :
    logout demoStore "a@b.com" "a@b.com"
      = .ok (some true, { users := [{ demoUser with currentToken := none }], nextId := 2 }) ∧
    (({ users := [{ demoUser with currentToken := none }], nextId := 2 } : Store).nextId = demoStore.nextId ∧
      ({ users := [{ demoUser with currentToken := none }], nextId := 2 } : Store).users
        = demoStore.users.map (fun v => if v.email = "a@b.com" then { v with currentToken := none } else v) ∧
      (∀ v ∈ demoStore.users, v.email ≠ "a@b.com" → v ∈ ({ users := [{ demoUser with currentToken := none }], nextId := 2 } : Store).users) ∧
      (∀ v ∈ demoStore.users, v.email = "a@b.com" → { v with currentToken := none } ∈ ({ users := [{ demoUser with currentToken := none }], nextId := 2 } : Store).users)) := by
  refine ⟨by decide, ?_⟩
  exact C8_theorem demoStore "a@b.com" "a@b.com" (some true)
    { users := [{ demoUser with currentToken := none }], nextId := 2 } (by decide)

/-- Clearing the token by email, restricted to a store already produced
by such a clearing, finds the same rows and is a no-op. -/
lemma aux_find_clearstore (s : Store) (e : String) :
    findUniqueByEmail { s with users := (s.users.map (fun v => if v.email = e then { v with currentToken := none } else v)) } e
      = (findUniqueByEmail s e).map (fun v => if v.email = e then { v with currentToken := none } else v) := by
  unfold findUniqueByEmail
  exact aux_find_map_clear s.users e

/-- Claim C9: logout is idempotent for the owner — after a successful
logout of the caller's own email, repeating the identical call succeeds
again (reporting true) and leaves the store exactly as the first call
left it. -/
theorem C9_theorem (s : Store) (e : String) (r : Option Bool) (s1 : Store)
    (h : logout s e e = .ok (r, s1)) :
    logout s1 e e = .ok (some true, s1) := by
  obtain ⟨he, -, -, u, hf, hs1⟩ := logout_ok_inv h
  have hf1 : findUniqueByEmail s1 e
      = some (if u.email = e then { u with currentToken := none } else u) := by
    rw [hs1]
    have hh := aux_find_clearstore s e
    rw [hf] at hh
    simpa using hh
  have husers : s1.users.map (fun v => if v.email = e then { v with currentToken := none } else v) = s1.users := by
    rw [hs1]
    exact aux_map_clear_idem s.users e
  have hupd : prismaUpdateTokenByEmail s1 e none = .ok s1 := by
    unfold prismaUpdateTokenByEmail
    rw [if_pos (aux_any_of_find hf1), husers]
  simp [logout, he, hf1, hupd]

/-- Claim C9, witnessed: a second logout of the sample user is accepted
and leaves the once-cleared store unchanged. -/
theorem C9_witness :
    logout demoStore "a@b.com" "a@b.com"
      = .ok (some true, { users := [{ demoUser with currentToken := none }], nextId := 2 }) ∧
    logout { users := [{ demoUser with currentToken := none }], nextId := 2 } "a@b.com" "a@b.com"
      = .ok (some true, { users := [{ demoUser with currentToken := none }], nextId := 2 }) := by
  refine ⟨by decide, ?_⟩
  exact C9_theorem demoStore "a@b.com" (some true)
    { users := [{ demoUser with currentToken := none }], nextId := 2 } (by decide)

/-- Claim C10: whenever the logout service returns normally it returns
true (never false or null), so the result is always truthy and the
controller's fallback branch reporting no user found is unreachable:
whenever the service returns, the controller answers with the success
message. -/
theorem C10_theorem (s : Store) (e c : String) (r : Option Bool) (s1 : Store)
    (h : logout s e c = .ok (r, s1)) :
    r = some true ∧ jsTruthy r = true ∧
    (c ≠ "" → controllerLogout s e (some c)
      = .ok ("User with email " ++ e ++ " logged out successfully", s1)) := by
  obtain ⟨he, -, hr, -, -, -⟩ := logout_ok_inv h
  subst hr
  refine ⟨rfl, rfl, ?_⟩
  intro hc
  simp [controllerLogout, he, hc, h, jsTruthy]

/-- Claim C10, witnessed at a concrete successful logout through the
controller. -/
theorem C10_witness :
    logout demoStore "a@b.com" "a@b.com"
      = .ok (some true, { users := [{ demoUser with currentToken := none }], nextId := 2 }) ∧
    (jsTruthy (some true) = true ∧
      controllerLogout demoStore "a@b.com" (some "a@b.com")
        = .ok ("User with email " ++ "a@b.com" ++ " logged out successfully",
               { users := [{ demoUser with currentToken := none }], nextId := 2 })) := by
  refine ⟨by decide, ?_⟩
  have hc := C10_theorem demoStore "a@b.com" "a@b.com" (some true)
    { users := [{ demoUser with currentToken := none }], nextId := 2 } (by decide)
  exact ⟨hc.2.1, hc.2.2 (by decide)⟩

end Auth
